import Mathlib

/-!
Shallow embedding of the resilient-interaction layer of
`src/core/pom/web/base_page.py`: the `retry` decorator, `safe_click`,
`safe_input` and `wait_for_element`.

Modelling conventions:
* Python exceptions are values of `PyExc` (constructor = exception class,
  argument = message); `str(e)` is modelled by `PyExc.str`.
* The browser is an abstract environment: for each loop iteration the
  environment fixes the outcome of each Selenium call (element wait,
  native click, scripted click, clear, send_keys, value read-back).
* Wall-clock time is discretised in tenths of a second: `time.sleep(0.5)`
  advances the clock by 5, a timeout of `t` seconds becomes `t * 10`, and
  the environment says how many tenths each 1-second sub-wait consumed.
* A run also produces a trace of observable events (`Ev`), so that claims
  about "how many clicks / sleeps / reads happened" are statements about
  the trace.
-/

namespace Testopus

/-- A Python exception: the class that was raised together with its message. -/
inductive PyExc where
  | timeoutExc (msg : String)
  | noSuchElement (msg : String)
  | elementNotVisible (msg : String)
  | other (ty : String) (msg : String)
deriving DecidableEq, Repr

/-- `str(e)` on an exception: its message. -/
def PyExc.str : PyExc → String
  | .timeoutExc m => m
  | .noSuchElement m => m
  | .elementNotVisible m => m
  | .other _ m => m

/-- A WebElement handle, identified by an id so that "same handle" is expressible. -/
structure Elem where
  id : Nat
deriving DecidableEq, Repr

/-- Display state of the target element (used by the expected-condition model). -/
structure ElemState where
  visible : Bool
  enabled : Bool
deriving DecidableEq, Repr

/-- Outcome of a wait built on `EC.visibility_of_element_located`
(`wait_for_element_visible`): it yields the element iff the element is
displayed; whether the element is enabled is not consulted. -/
def visibilityOutcome (st : ElemState) (e : Elem) : Except PyExc Elem :=
  if st.visible then .ok e else .error (.timeoutExc "")

/-- Modelled from the spec: `clickable` means visible and enabled
(`EC.element_to_be_clickable`); used only to compare the spec's wording
with what `safe_click` actually waits on. -/
def clickableCheck (st : ElemState) : Bool := st.visible && st.enabled

/-! ## The `retry` decorator (base_page.py lines 559-588) -/

/-- Counters observable from outside a `retry`-wrapped call: how many times
the wrapped function ran, how many sleeps happened, and the `(attempt,
exception)` arguments of each `on_retry` invocation. -/
structure RetryTrace where
  calls : Nat
  sleeps : Nat
  callbackArgs : List (Nat × PyExc)
deriving DecidableEq, Repr

/-- What the wrapper produced: the wrapped function's value, a raised
exception, or Python's implicit `None` when the loop body never ran. -/
inductive RetryOutcome (α : Type) where
  | value (v : α)
  | raised (ex : PyExc)
  | noneReturn
deriving DecidableEq, Repr

/-- The `for attempt in range(retries)` loop of `retry`'s `wrapper`:
`attempt` is the current index, the second argument the number of loop
iterations still to run, the third `last_exception`.  `op i` is the outcome
of the i-th invocation of the wrapped function, `matched` the membership
test of `except exceptions as e`, `hasCallback` whether `on_retry` was
given. -/
def retryAux {α : Type} (op : Nat → Except PyExc α) (matched : PyExc → Bool)
    (hasCallback : Bool) (retries : Nat) :
    Nat → Nat → Option PyExc → RetryOutcome α × RetryTrace
  | _, 0, some e => (.raised e, ⟨0, 0, []⟩)
  | _, 0, none => (.noneReturn, ⟨0, 0, []⟩)
  | attempt, rem + 1, _ =>
    match op attempt with
    | .ok v => (.value v, ⟨1, 0, []⟩)
    | .error e =>
      if matched e then
        if attempt < retries - 1 then
          match retryAux op matched hasCallback retries (attempt + 1) rem (some e) with
          | (out, tr) =>
            (out, ⟨tr.calls + 1, tr.sleeps + 1,
              (if hasCallback then [(attempt, e)] else []) ++ tr.callbackArgs⟩)
        else
          match retryAux op matched hasCallback retries (attempt + 1) rem (some e) with
          | (out, tr) => (out, ⟨tr.calls + 1, tr.sleeps, tr.callbackArgs⟩)
      else
        (.raised e, ⟨1, 0, []⟩)

/-- A call of a function wrapped by `retry(retries, delay, exceptions, on_retry)`. -/
def retry {α : Type} (retries : Nat) (matched : PyExc → Bool) (hasCallback : Bool)
    (op : Nat → Except PyExc α) : RetryOutcome α × RetryTrace :=
  retryAux op matched hasCallback retries 0 retries none

/-! ## Events and timeout resolution shared by the interaction loops -/

/-- Observable events of an interaction run.  Durations are in tenths of a
second; `waitVisible` records the sub-timeout passed to
`wait_for_element_visible` and whether the wait returned an element. -/
inductive Ev where
  | waitVisible (subTimeout : Nat) (ok : Bool)
  | nativeClick (e : Elem)
  | jsClick (e : Elem)
  | clearNativeEv (ok : Bool)
  | clearJsEv
  | sendKeysEv
  | readValue (v : String)
  | jsSetEv
  | sleep (tenths : Nat)
deriving DecidableEq, Repr

/-- `self.DEFAULT_TIMEOUT` in seconds. -/
def DEFAULT_TIMEOUT : Int := 3

/-- `timeout = timeout or self.DEFAULT_TIMEOUT`: `None` and the falsy
integer `0` both select the default; every other integer (negative ones
included) is kept. -/
def resolveTimeout (timeout : Option Int) : Int :=
  match timeout with
  | none => DEFAULT_TIMEOUT
  | some t => if t = 0 then DEFAULT_TIMEOUT else t

/-- How one iteration of a `while` body ended: the enclosing function
returned, or an exception reached the iteration's outer `except`. -/
inductive IterOut where
  | ret
  | exc (ex : PyExc)
deriving DecidableEq, Repr

/-! ## safe_click (base_page.py lines 156-188) -/

/-- Environment for a `safe_click` run: per iteration `i`, the outcome and
duration (tenths) of the 1-second visibility wait, and the outcomes of the
native and the scripted click on a given element. -/
structure ClickEnv where
  waitRes : Nat → Except PyExc Elem
  waitDur : Nat → Nat
  nativeRes : Nat → Elem → Except PyExc Unit
  jsRes : Nat → Elem → Except PyExc Unit

/-- The `try` body of one `safe_click` loop iteration: wait for visibility
(sub-timeout 1s); on an element, try the native click and, if it throws,
the scripted click on the same handle. -/
def safeClickIter (env : ClickEnv) (i : Nat) : IterOut × List Ev :=
  match env.waitRes i with
  | .error ex => (.exc ex, [.waitVisible 1 false])
  | .ok e =>
    match env.nativeRes i e with
    | .ok _ => (.ret, [.waitVisible 1 true, .nativeClick e])
    | .error _ =>
      match env.jsRes i e with
      | .ok _ => (.ret, [.waitVisible 1 true, .nativeClick e, .jsClick e])
      | .error ex2 => (.exc ex2, [.waitVisible 1 true, .nativeClick e, .jsClick e])

/-- The code after `safe_click`'s loop: `if last_exception:` raise
`ElementNotVisibleException` wrapping `str(last_exception)`, else fall
through and return `None`. -/
def safeClickExit (loc : String) (last : Option PyExc) : Except PyExc Unit :=
  match last with
  | some ex =>
    .error (.elementNotVisible
      ("Element " ++ loc ++ " not clickable after multiple attempts: " ++ ex.str))
  | none => .ok ()

/-- The `while time.time() - start_time < timeout` loop of `safe_click`:
on an iteration exception, record it as `last_exception`, sleep 0.5s and
retry; once the deadline has passed, run the post-loop code. -/
def safeClickGo (env : ClickEnv) (loc : String) (timeout10 : Int)
    (i : Nat) (elapsed : Nat) (last : Option PyExc) (tr : List Ev) :
    Except PyExc Unit × List Ev :=
  if h : (elapsed : Int) < timeout10 then
    match (safeClickIter env i).1 with
    | .ret => (.ok (), tr ++ (safeClickIter env i).2)
    | .exc ex =>
      safeClickGo env loc timeout10 (i + 1) (elapsed + env.waitDur i + 5) (some ex)
        (tr ++ (safeClickIter env i).2 ++ [.sleep 5])
  else
    (safeClickExit loc last, tr)
termination_by (timeout10 - (elapsed : Int)).toNat
decreasing_by omega

/-- `safe_click(locator, timeout)`. -/
def safeClick (env : ClickEnv) (loc : String) (timeout : Option Int) :
    Except PyExc Unit × List Ev :=
  safeClickGo env loc (resolveTimeout timeout * 10) 0 0 none []

/-! ## safe_input (base_page.py lines 231-275) -/

/-- Environment for a `safe_input` run: per iteration `i`, the outcomes of
the visibility wait, `element.clear()`, the scripted clear, `send_keys`,
`get_attribute("value")` and the scripted value-assignment. -/
structure InputEnv where
  waitRes : Nat → Except PyExc Elem
  waitDur : Nat → Nat
  clearNative : Nat → Elem → Except PyExc Unit
  clearJs : Nat → Elem → Except PyExc Unit
  sendKeys : Nat → Elem → Except PyExc Unit
  readValue : Nat → Elem → Except PyExc String
  jsSet : Nat → Elem → Except PyExc Unit

/-- `clear_field`: native clear, falling back to a scripted clear whose
exception, if any, propagates. -/
def clearField (env : InputEnv) (i : Nat) (e : Elem) : Except PyExc Unit × List Ev :=
  match env.clearNative i e with
  | .ok _ => (.ok (), [.clearNativeEv true])
  | .error _ =>
    match env.clearJs i e with
    | .ok _ => (.ok (), [.clearNativeEv false, .clearJsEv])
    | .error ex => (.error ex, [.clearNativeEv false, .clearJsEv])

/-- The inner `try` block of `safe_input`: clear, native text entry, value
read-back; if the read-back differs from `text`, a scripted
value-assignment, after which the function returns with no further read. -/
def safeInputAttempt (env : InputEnv) (i : Nat) (e : Elem) (text : String) :
    Except PyExc Unit × List Ev :=
  match clearField env i e with
  | (.error ex, evs) => (.error ex, evs)
  | (.ok _, evs) =>
    match env.sendKeys i e with
    | .error ex => (.error ex, evs ++ [.sendKeysEv])
    | .ok _ =>
      match env.readValue i e with
      | .error ex => (.error ex, evs ++ [.sendKeysEv])
      | .ok v =>
        if v = text then (.ok (), evs ++ [.sendKeysEv, .readValue v])
        else
          match env.jsSet i e with
          | .ok _ => (.ok (), evs ++ [.sendKeysEv, .readValue v, .jsSetEv])
          | .error ex => (.error ex, evs ++ [.sendKeysEv, .readValue v, .jsSetEv])

/-- The inner `except Exception` handler of `safe_input`: scripted clear
and scripted value-assignment, then return. -/
def safeInputFallback (env : InputEnv) (i : Nat) (e : Elem) :
    Except PyExc Unit × List Ev :=
  match clearField env i e with
  | (.error ex, evs) => (.error ex, evs)
  | (.ok _, evs) =>
    match env.jsSet i e with
    | .ok _ => (.ok (), evs ++ [.jsSetEv])
    | .error ex => (.error ex, evs ++ [.jsSetEv])

/-- One `safe_input` loop iteration: visibility wait (sub-timeout 1s), the
inner `try` block, and on its exception the scripted fallback handler;
whatever the handler raises reaches the iteration's outer `except`. -/
def safeInputIter (env : InputEnv) (i : Nat) (text : String) : IterOut × List Ev :=
  match env.waitRes i with
  | .error ex => (.exc ex, [.waitVisible 1 false])
  | .ok e =>
    match safeInputAttempt env i e text with
    | (.ok _, evs) => (.ret, [.waitVisible 1 true] ++ evs)
    | (.error _, evs) =>
      match safeInputFallback env i e with
      | (.ok _, evs2) => (.ret, [.waitVisible 1 true] ++ evs ++ evs2)
      | (.error ex2, evs2) => (.exc ex2, [.waitVisible 1 true] ++ evs ++ evs2)

/-- The code after `safe_input`'s loop: `if last_exception:` raise
`NoSuchElementException` wrapping `str(last_exception)`, else fall through
and return `None`. -/
def safeInputExit (loc : String) (last : Option PyExc) : Except PyExc Unit :=
  match last with
  | some ex =>
    .error (.noSuchElement
      ("Could not fill text in " ++ loc ++ " after multiple attempts: " ++ ex.str))
  | none => .ok ()

/-- The outer `while` loop of `safe_input`. -/
def safeInputGo (env : InputEnv) (loc : String) (text : String) (timeout10 : Int)
    (i : Nat) (elapsed : Nat) (last : Option PyExc) (tr : List Ev) :
    Except PyExc Unit × List Ev :=
  if h : (elapsed : Int) < timeout10 then
    match (safeInputIter env i text).1 with
    | .ret => (.ok (), tr ++ (safeInputIter env i text).2)
    | .exc ex =>
      safeInputGo env loc text timeout10 (i + 1) (elapsed + env.waitDur i + 5) (some ex)
        (tr ++ (safeInputIter env i text).2 ++ [.sleep 5])
  else
    (safeInputExit loc last, tr)
termination_by (timeout10 - (elapsed : Int)).toNat
decreasing_by omega

/-- `safe_input(locator, text, timeout)`. -/
def safeInput (env : InputEnv) (loc : String) (text : String) (timeout : Option Int) :
    Except PyExc Unit × List Ev :=
  safeInputGo env loc text (resolveTimeout timeout * 10) 0 0 none []

/-! ## wait_for_element (base_page.py lines 64-89) -/

/-- Environment for a `wait_for_element` run: outcome and duration of the
1-second presence sub-wait at each iteration. -/
structure WaitEnv where
  res : Nat → Except PyExc Elem
  dur : Nat → Nat

/-- The code after `wait_for_element`'s loop: `if last_exception: raise
last_exception` (the recorded exception itself, unchanged); only when no
iteration ever ran, a fresh `TimeoutException` naming the locator and the
`present` state. -/
def waitForElementExit (loc : String) (last : Option PyExc) : Except PyExc Elem :=
  match last with
  | some ex => .error ex
  | none =>
    .error (.timeoutExc ("Timed out waiting for element " ++ loc ++ " to be present"))

/-- The retry loop of `wait_for_element`: on a sub-wait exception, record
it and sleep 0.5s; past the deadline, run the post-loop code. -/
def waitForElementGo (env : WaitEnv) (loc : String) (timeout10 : Int)
    (i : Nat) (elapsed : Nat) (last : Option PyExc) : Except PyExc Elem :=
  if h : (elapsed : Int) < timeout10 then
    match env.res i with
    | .ok e => .ok e
    | .error ex =>
      waitForElementGo env loc timeout10 (i + 1) (elapsed + env.dur i + 5) (some ex)
  else
    waitForElementExit loc last
termination_by (timeout10 - (elapsed : Int)).toNat
decreasing_by omega

/-- `wait_for_element(locator, timeout)` (the timeout is a plain parameter
here, not `or`-resolved). -/
def waitForElement (env : WaitEnv) (loc : String) (timeout : Int) : Except PyExc Elem :=
  waitForElementGo env loc (timeout * 10) 0 0 none

/-! ## Concrete environments used as witnesses and counterexamples -/

/-- The element handle used in the concrete runs. -/
def elem0 : Elem := ⟨0⟩

/-- A native-click failure. -/
def exNative : PyExc := .other "ElementClickInterceptedException" "intercepted"

/-- A scripted-click failure. -/
def exJs : PyExc := .other "StaleElementReferenceException" "stale"

/-- A native text-entry failure. -/
def exKeys : PyExc := .other "ElementNotInteractableException" "keyboard not reachable"

/-- Click environment whose element is visible but never enabled; its waits
are built from the visibility condition, exactly as the code's
`wait_for_element_visible` is, and the native click succeeds. -/
def envVisibleDisabled : ClickEnv :=
  ⟨fun _ => visibilityOutcome ⟨true, false⟩ elem0, fun _ => 10,
   fun _ _ => .ok (), fun _ _ => .ok ()⟩

/-- Click environment: element always found, native click always throws,
scripted click succeeds. -/
def envNativeThrows : ClickEnv :=
  ⟨fun _ => .ok elem0, fun _ => 10, fun _ _ => .error exNative, fun _ _ => .ok ()⟩

/-- Click environment: element always found, both click strategies throw. -/
def envBothThrow : ClickEnv :=
  ⟨fun _ => .ok elem0, fun _ => 10, fun _ _ => .error exNative, fun _ _ => .error exJs⟩

/-- Input environment: every native step succeeds but the read-back value
is always "masked", never the requested text. -/
def envMismatch : InputEnv :=
  ⟨fun _ => .ok elem0, fun _ => 10, fun _ _ => .ok (), fun _ _ => .ok (),
   fun _ _ => .ok (), fun _ _ => .ok "masked", fun _ _ => .ok ()⟩

/-- Input environment: native `send_keys` always throws; the scripted clear
and scripted value-assignment succeed. -/
def envKeysThrow : InputEnv :=
  ⟨fun _ => .ok elem0, fun _ => 10, fun _ _ => .ok (), fun _ _ => .ok (),
   fun _ _ => .error exKeys, fun _ _ => .ok "", fun _ _ => .ok ()⟩

/-- Wait environment: the presence sub-wait always times out; a Selenium
`WebDriverWait.until` timeout carries an empty message. -/
def envNeverPresent : WaitEnv := ⟨fun _ => .error (.timeoutExc ""), fun _ => 10⟩

/-! ## Small-step unfolding lemmas for the three timed loops -/

theorem safeClickGo_ret_step (env : ClickEnv) (loc : String) (t10 : Int)
    (i elapsed : Nat) (last : Option PyExc) (tr evs : List Ev)
    (hc : (elapsed : Int) < t10) (hit : safeClickIter env i = (.ret, evs)) :
    safeClickGo env loc t10 i elapsed last tr = (.ok (), tr ++ evs) := by
  conv_lhs => unfold safeClickGo
  rw [dif_pos hc, hit]

theorem safeClickGo_exc_step (env : ClickEnv) (loc : String) (t10 : Int)
    (i elapsed : Nat) (last : Option PyExc) (tr evs : List Ev) (ex : PyExc)
    (hc : (elapsed : Int) < t10) (hit : safeClickIter env i = (.exc ex, evs)) :
    safeClickGo env loc t10 i elapsed last tr =
      safeClickGo env loc t10 (i + 1) (elapsed + env.waitDur i + 5) (some ex)
        (tr ++ evs ++ [.sleep 5]) := by
  conv_lhs => unfold safeClickGo
  rw [dif_pos hc, hit]

theorem safeClickGo_exit_some (env : ClickEnv) (loc : String) (t10 : Int)
    (i elapsed : Nat) (tr : List Ev) (ex : PyExc)
    (hc : ¬ (elapsed : Int) < t10) :
    safeClickGo env loc t10 i elapsed (some ex) tr =
      (.error (.elementNotVisible
        ("Element " ++ loc ++ " not clickable after multiple attempts: " ++ ex.str)), tr) := by
  unfold safeClickGo
  rw [dif_neg hc]
  rfl

theorem safeClickGo_exit_none (env : ClickEnv) (loc : String) (t10 : Int)
    (i elapsed : Nat) (tr : List Ev)
    (hc : ¬ (elapsed : Int) < t10) :
    safeClickGo env loc t10 i elapsed none tr = (.ok (), tr) := by
  unfold safeClickGo
  rw [dif_neg hc]
  rfl

theorem safeInputGo_ret_step (env : InputEnv) (loc text : String) (t10 : Int)
    (i elapsed : Nat) (last : Option PyExc) (tr evs : List Ev)
    (hc : (elapsed : Int) < t10) (hit : safeInputIter env i text = (.ret, evs)) :
    safeInputGo env loc text t10 i elapsed last tr = (.ok (), tr ++ evs) := by
  conv_lhs => unfold safeInputGo
  rw [dif_pos hc, hit]

theorem safeInputGo_exc_step (env : InputEnv) (loc text : String) (t10 : Int)
    (i elapsed : Nat) (last : Option PyExc) (tr evs : List Ev) (ex : PyExc)
    (hc : (elapsed : Int) < t10) (hit : safeInputIter env i text = (.exc ex, evs)) :
    safeInputGo env loc text t10 i elapsed last tr =
      safeInputGo env loc text t10 (i + 1) (elapsed + env.waitDur i + 5) (some ex)
        (tr ++ evs ++ [.sleep 5]) := by
  conv_lhs => unfold safeInputGo
  rw [dif_pos hc, hit]

theorem safeInputGo_exit_some (env : InputEnv) (loc text : String) (t10 : Int)
    (i elapsed : Nat) (tr : List Ev) (ex : PyExc)
    (hc : ¬ (elapsed : Int) < t10) :
    safeInputGo env loc text t10 i elapsed (some ex) tr =
      (.error (.noSuchElement
        ("Could not fill text in " ++ loc ++ " after multiple attempts: " ++ ex.str)), tr) := by
  unfold safeInputGo
  rw [dif_neg hc]
  rfl

theorem safeInputGo_exit_none (env : InputEnv) (loc text : String) (t10 : Int)
    (i elapsed : Nat) (tr : List Ev)
    (hc : ¬ (elapsed : Int) < t10) :
    safeInputGo env loc text t10 i elapsed none tr = (.ok (), tr) := by
  unfold safeInputGo
  rw [dif_neg hc]
  rfl

theorem waitForElementGo_ok_step (env : WaitEnv) (loc : String) (t10 : Int)
    (i elapsed : Nat) (last : Option PyExc) (e : Elem)
    (hc : (elapsed : Int) < t10) (hres : env.res i = .ok e) :
    waitForElementGo env loc t10 i elapsed last = .ok e := by
  conv_lhs => unfold waitForElementGo
  rw [dif_pos hc, hres]

theorem waitForElementGo_fail_step (env : WaitEnv) (loc : String) (t10 : Int)
    (i elapsed : Nat) (last : Option PyExc) (ex : PyExc)
    (hc : (elapsed : Int) < t10) (hres : env.res i = .error ex) :
    waitForElementGo env loc t10 i elapsed last =
      waitForElementGo env loc t10 (i + 1) (elapsed + env.dur i + 5) (some ex) := by
  conv_lhs => unfold waitForElementGo
  rw [dif_pos hc, hres]

theorem waitForElementGo_exit_some (env : WaitEnv) (loc : String) (t10 : Int)
    (i elapsed : Nat) (ex : PyExc)
    (hc : ¬ (elapsed : Int) < t10) :
    waitForElementGo env loc t10 i elapsed (some ex) = .error ex := by
  unfold waitForElementGo
  rw [dif_neg hc]
  rfl

theorem waitForElementGo_exit_none (env : WaitEnv) (loc : String) (t10 : Int)
    (i elapsed : Nat)
    (hc : ¬ (elapsed : Int) < t10) :
    waitForElementGo env loc t10 i elapsed none =
      .error (.timeoutExc ("Timed out waiting for element " ++ loc ++ " to be present")) := by
  unfold waitForElementGo
  rw [dif_neg hc]
  rfl

/-! ## Lemmas about the `retry` loop -/

theorem retryAux_all_matched {α : Type} (op : Nat → Except PyExc α)
    (matched : PyExc → Bool) (hcb : Bool) (N : Nat) (e : Nat → PyExc)
    (hop : ∀ i, op i = .error (e i)) (hm : ∀ i, matched (e i) = true) :
    ∀ (m attempt : Nat) (last : Option PyExc), attempt + (m + 1) = N →
      retryAux op matched hcb N attempt (m + 1) last =
        (.raised (e (N - 1)),
         ⟨m + 1, m, if hcb then (List.range' attempt m).map (fun j => (j, e j)) else []⟩) := by
  intro m
  induction m with
  | zero =>
    intro attempt last hN
    have ha : attempt = N - 1 := by omega
    have hlt : ¬ attempt < N - 1 := by omega
    conv_lhs => unfold retryAux
    simp only [hop attempt, hm attempt, if_neg hlt, retryAux]
    simp [ha]
  | succ m ih =>
    intro attempt last hN
    have hlt : attempt < N - 1 := by omega
    conv_lhs => unfold retryAux
    simp only [hop attempt, hm attempt, if_true, if_pos hlt]
    rw [ih (attempt + 1) (some (e attempt)) (by omega)]
    cases hcb <;> simp [List.range'_succ]

theorem retryAux_unmatched_head {α : Type} (op : Nat → Except PyExc α)
    (matched : PyExc → Bool) (hcb : Bool) (N : Nat) (e : Nat → PyExc) (k : Nat)
    (hop : ∀ i, op i = .error (e i))
    (hmlt : ∀ i, i < k → matched (e i) = true) (hmk : matched (e k) = false)
    (hkN : k < N) :
    ∀ (d attempt rem : Nat) (last : Option PyExc),
      attempt + d = k → attempt + rem = N →
      retryAux op matched hcb N attempt rem last =
        (.raised (e k),
         ⟨d + 1, d, if hcb then (List.range' attempt d).map (fun j => (j, e j)) else []⟩) := by
  intro d
  induction d with
  | zero =>
    intro attempt rem last hak haN
    obtain ⟨r, rfl⟩ : ∃ r, rem = r + 1 := ⟨rem - 1, by omega⟩
    have ha : attempt = k := by omega
    subst ha
    conv_lhs => unfold retryAux
    simp only [hop attempt, hmk]
    simp
  | succ d ih =>
    intro attempt rem last hak haN
    obtain ⟨r, rfl⟩ : ∃ r, rem = r + 1 := ⟨rem - 1, by omega⟩
    have hm1 : matched (e attempt) = true := hmlt attempt (by omega)
    have hlt : attempt < N - 1 := by omega
    conv_lhs => unfold retryAux
    simp only [hop attempt, hm1, if_true, if_pos hlt]
    rw [ih (attempt + 1) r (some (e attempt)) (by omega) (by omega)]
    cases hcb <;> simp [List.range'_succ]

/-! ## Claims about `retry` -/

/-- C1: with `retries = N ≥ 1` and an operation that always raises a matched
exception, the wrapper invokes the operation exactly N times, runs the
callback (when provided) exactly N-1 times with the attempt index and the
exception of that attempt, sleeps exactly N-1 times, and re-raises the
final invocation's exception unchanged. -/
theorem retry_matched_failures_exhaust {α : Type} (op : Nat → Except PyExc α)
    (matched : PyExc → Bool) (hcb : Bool) (N : Nat) (e : Nat → PyExc)
    (hN : 1 ≤ N) (hop : ∀ i, op i = .error (e i)) (hm : ∀ i, matched (e i) = true) :
    retry N matched hcb op =
      (.raised (e (N - 1)),
       ⟨N, N - 1, if hcb then (List.range (N - 1)).map (fun j => (j, e j)) else []⟩) := by
  obtain ⟨m, rfl⟩ : ∃ m, N = m + 1 := ⟨N - 1, by omega⟩
  unfold retry
  rw [retryAux_all_matched op matched hcb (m + 1) e hop hm m 0 none (by omega)]
  simp [List.range_eq_range']

theorem retry_matched_failures_exhaust_witness :
    retry 3 (fun _ => true) true
        (fun _ => (Except.error (PyExc.other "E" "boom") : Except PyExc Unit)) =
      (.raised (.other "E" "boom"),
       ⟨3, 2, [(0, .other "E" "boom"), (1, .other "E" "boom")]⟩) := by
  have h := retry_matched_failures_exhaust
    (fun _ => (Except.error (PyExc.other "E" "boom") : Except PyExc Unit))
    (fun _ => true) true 3 (fun _ => PyExc.other "E" "boom")
    (by omega) (fun _ => rfl) (fun _ => rfl)
  simpa [List.range_succ] using h

/-- C8: if the first k invocations raise matched exceptions and invocation k
raises an exception outside the matched set, that exception propagates to
the caller at once: no further invocation, and no sleep or callback beyond
the k earlier matched failures. -/
theorem retry_unmatched_propagates {α : Type} (op : Nat → Except PyExc α)
    (matched : PyExc → Bool) (hcb : Bool) (N k : Nat) (e : Nat → PyExc)
    (hkN : k < N) (hop : ∀ i, op i = .error (e i))
    (hmlt : ∀ i, i < k → matched (e i) = true) (hmk : matched (e k) = false) :
    retry N matched hcb op =
      (.raised (e k),
       ⟨k + 1, k, if hcb then (List.range k).map (fun j => (j, e j)) else []⟩) := by
  unfold retry
  rw [retryAux_unmatched_head op matched hcb N e k hop hmlt hmk hkN k 0 N none
    (by omega) (by omega)]
  simp [List.range_eq_range']

theorem retry_unmatched_propagates_witness :
    retry 3 (fun ex => match ex with | .other "A" _ => true | _ => false) true
        (fun _ => (Except.error (PyExc.other "B" "kaboom") : Except PyExc Unit)) =
      (.raised (.other "B" "kaboom"), ⟨1, 0, []⟩) := by
  have h := retry_unmatched_propagates
    (fun _ => (Except.error (PyExc.other "B" "kaboom") : Except PyExc Unit))
    (fun ex => match ex with | .other "A" _ => true | _ => false) true 3 0
    (fun _ => PyExc.other "B" "kaboom")
    (by omega) (fun _ => rfl) (fun i hi => by omega) (by rfl)
  simpa using h

/-- C10: with `retries = 0` the loop body never runs, the wrapped operation
is never invoked, nothing is raised, and the wrapper returns Python's
implicit `None`. -/
theorem retry_zero_retries_none {α : Type} (op : Nat → Except PyExc α)
    (matched : PyExc → Bool) (hcb : Bool) :
    retry 0 matched hcb op = (.noneReturn, ⟨0, 0, []⟩) := rfl

/-- C9: with a negative timeout, `safe_click` and `safe_input` skip their
loops entirely (the `or`-resolution keeps a negative value), perform no
wait, click, clear or text entry, raise nothing, and return `None`. -/
theorem negative_timeout_silent_noop (t : Int) (ht : t < 0) (envC : ClickEnv)
    (envI : InputEnv) (locC locI text : String) :
    safeClick envC locC (some t) = (.ok (), []) ∧
      safeInput envI locI text (some t) = (.ok (), []) := by
  have hres : resolveTimeout (some t) = t := by
    simp only [resolveTimeout]
    rw [if_neg (by omega)]
  refine ⟨?_, ?_⟩
  · unfold safeClick
    rw [hres, safeClickGo_exit_none]
    omega
  · unfold safeInput
    rw [hres, safeInputGo_exit_none]
    omega

theorem negative_timeout_silent_noop_witness :
    safeClick ⟨fun _ => .ok ⟨0⟩, fun _ => 10, fun _ _ => .ok (), fun _ _ => .ok ()⟩
        "(By.ID, b)" (some (-1)) = (.ok (), []) ∧
      safeInput ⟨fun _ => .ok ⟨0⟩, fun _ => 10, fun _ _ => .ok (), fun _ _ => .ok (),
          fun _ _ => .ok (), fun _ _ => .ok "", fun _ _ => .ok ()⟩
        "(By.ID, f)" "abc" (some (-1)) = (.ok (), []) :=
  negative_timeout_silent_noop (-1) (by omega)
    ⟨fun _ => .ok ⟨0⟩, fun _ => 10, fun _ _ => .ok (), fun _ _ => .ok ()⟩
    ⟨fun _ => .ok ⟨0⟩, fun _ => 10, fun _ _ => .ok (), fun _ _ => .ok (),
      fun _ _ => .ok (), fun _ _ => .ok "", fun _ _ => .ok ()⟩
    "(By.ID, b)" "(By.ID, f)" "abc"

/-! ## Exhaustion lemmas for the timed loops -/

theorem safeClickGo_all_fail (env : ClickEnv) (loc : String) (t10 : Int)
    (el : Elem) (exJ : PyExc)
    (h1 : ∀ j, env.waitRes j = .ok el)
    (h2 : ∀ j, ∃ ex, env.nativeRes j el = .error ex)
    (h3 : ∀ j, env.jsRes j el = .error exJ) :
    ∀ (n i elapsed : Nat) (tr : List Ev), (t10 - (elapsed : Int)).toNat ≤ n →
      (safeClickGo env loc t10 i elapsed (some exJ) tr).1 =
        .error (.elementNotVisible
          ("Element " ++ loc ++ " not clickable after multiple attempts: " ++ exJ.str)) := by
  intro n
  induction n with
  | zero =>
    intro i elapsed tr hle
    rw [safeClickGo_exit_some env loc t10 i elapsed tr exJ (by omega)]
  | succ n ih =>
    intro i elapsed tr hle
    by_cases hc : (elapsed : Int) < t10
    · obtain ⟨exN, hexN⟩ := h2 i
      rw [safeClickGo_exc_step env loc t10 i elapsed (some exJ) tr
        [.waitVisible 1 true, .nativeClick el, .jsClick el] exJ hc
        (by simp [safeClickIter, h1 i, hexN, h3 i])]
      exact ih (i + 1) (elapsed + env.waitDur i + 5) _ (by omega)
    · rw [safeClickGo_exit_some env loc t10 i elapsed tr exJ hc]

theorem waitForElementGo_all_fail (env : WaitEnv) (loc : String) (t10 : Int)
    (ex : PyExc) (h1 : ∀ j, env.res j = .error ex) :
    ∀ (n i elapsed : Nat), (t10 - (elapsed : Int)).toNat ≤ n →
      waitForElementGo env loc t10 i elapsed (some ex) = .error ex := by
  intro n
  induction n with
  | zero =>
    intro i elapsed hle
    exact waitForElementGo_exit_some env loc t10 i elapsed ex (by omega)
  | succ n ih =>
    intro i elapsed hle
    by_cases hc : (elapsed : Int) < t10
    · rw [waitForElementGo_fail_step env loc t10 i elapsed (some ex) ex hc (h1 i)]
      exact ih (i + 1) _ (by omega)
    · exact waitForElementGo_exit_some env loc t10 i elapsed ex hc

/-! ## Claims about `safe_click` -/

/-- C5: if, at a loop iteration of `safe_click`, the visibility wait
returns an element, the native click on it throws and the scripted click
succeeds, the call returns success within that same iteration with exactly
one scripted click on the very same handle, no requery of the element, no
sleep, and no further outer iteration. -/
theorem safe_click_js_fallback_same_attempt (env : ClickEnv) (loc : String)
    (t10 : Int) (i elapsed : Nat) (last : Option PyExc) (tr : List Ev)
    (e : Elem) (exN : PyExc)
    (hc : (elapsed : Int) < t10) (hw : env.waitRes i = .ok e)
    (hn : env.nativeRes i e = .error exN) (hj : env.jsRes i e = .ok ()) :
    safeClickGo env loc t10 i elapsed last tr =
      (.ok (), tr ++ [.waitVisible 1 true, .nativeClick e, .jsClick e]) := by
  apply safeClickGo_ret_step env loc t10 i elapsed last tr _ hc
  simp [safeClickIter, hw, hn, hj]

theorem safe_click_js_fallback_same_attempt_witness :
    safeClickGo envNativeThrows "(By.ID, b)" 30 0 0 none [] =
      (.ok (), [.waitVisible 1 true, .nativeClick elem0, .jsClick elem0]) := by
  have h := safe_click_js_fallback_same_attempt envNativeThrows "(By.ID, b)" 30 0 0 none []
    elem0 exNative (by norm_num) rfl rfl rfl
  simpa using h

/-- C6: if the visibility wait always returns the element but both the
native and the scripted click always throw, then once the deadline passes
`safe_click` raises the `ElementNotVisibleException` whose "not clickable"
message wraps `str` of the last underlying cause (the failure the spec's
taxonomy calls NotInteractable). -/
theorem safe_click_deadline_not_interactable (env : ClickEnv) (loc : String)
    (T : Int) (el : Elem) (exJ : PyExc) (hT : 0 < T)
    (h1 : ∀ j, env.waitRes j = .ok el)
    (h2 : ∀ j, ∃ ex, env.nativeRes j el = .error ex)
    (h3 : ∀ j, env.jsRes j el = .error exJ) :
    (safeClick env loc (some T)).1 =
      .error (.elementNotVisible
        ("Element " ++ loc ++ " not clickable after multiple attempts: " ++ exJ.str)) := by
  unfold safeClick
  have hres : resolveTimeout (some T) = T := by
    simp only [resolveTimeout]
    rw [if_neg (by omega)]
  rw [hres]
  obtain ⟨exN, hexN⟩ := h2 0
  rw [safeClickGo_exc_step env loc (T * 10) 0 0 none []
    [.waitVisible 1 true, .nativeClick el, .jsClick el] exJ (by omega)
    (by simp [safeClickIter, h1 0, hexN, h3 0])]
  exact safeClickGo_all_fail env loc (T * 10) el exJ h1 h2 h3 (T * 10).toNat 1 _ _ (by omega)

theorem safe_click_deadline_not_interactable_witness :
    (safeClick envBothThrow "(By.ID, b)" (some 1)).1 =
      .error (.elementNotVisible
        ("Element " ++ "(By.ID, b)" ++ " not clickable after multiple attempts: "
          ++ exJs.str)) :=
  safe_click_deadline_not_interactable envBothThrow "(By.ID, b)" 1 elem0 exJs
    (by norm_num) (fun _ => rfl) (fun _ => ⟨exNative, rfl⟩) (fun _ => rfl)

/-- C4 counterexample: against an element that is visible but never enabled
— hence never clickable in the spec's sense — `safe_click`'s per-iteration
wait still hands the element over and the native click is attempted (and
here succeeds); the iteration therefore does not wait for clickability. -/
theorem safe_click_waits_visible_not_clickable_cex :
    safeClick envVisibleDisabled "(By.ID, b)" (some 1) =
      (.ok (), [.waitVisible 1 true, .nativeClick elem0]) ∧
      clickableCheck ⟨true, false⟩ = false := by
  constructor
  · unfold safeClick
    rw [safeClickGo_ret_step envVisibleDisabled "(By.ID, b)" (resolveTimeout (some 1) * 10)
      0 0 none [] [.waitVisible 1 true, .nativeClick elem0]
      (by norm_num [resolveTimeout, DEFAULT_TIMEOUT]) rfl]
    simp
  · rfl

/-- C4 (amended): every iteration of `safe_click` begins with a visibility
wait with sub-timeout 1 second, and a native click happens in an iteration
only on the element returned by that successful visibility wait; whether
the element is enabled (clickable) is not part of the awaited condition. -/
theorem safe_click_iter_visible_wait_first (env : ClickEnv) (i : Nat) (e : Elem)
    (h : Ev.nativeClick e ∈ (safeClickIter env i).2) :
    (safeClickIter env i).2.head? = some (.waitVisible 1 true) ∧
      env.waitRes i = .ok e := by
  cases hw : env.waitRes i with
  | error ex => simp [safeClickIter, hw] at h
  | ok e' =>
    cases hn : env.nativeRes i e' with
    | ok u =>
      simp only [safeClickIter, hw, hn] at h ⊢
      simp at h
      simp [h]
    | error ex =>
      cases hj : env.jsRes i e' with
      | ok u =>
        simp only [safeClickIter, hw, hn, hj] at h ⊢
        simp at h
        simp [h]
      | error ex2 =>
        simp only [safeClickIter, hw, hn, hj] at h ⊢
        simp at h
        simp [h]

theorem safe_click_iter_visible_wait_first_witness :
    Ev.nativeClick elem0 ∈ (safeClickIter envVisibleDisabled 0).2 ∧
      ((safeClickIter envVisibleDisabled 0).2.head? = some (.waitVisible 1 true) ∧
        envVisibleDisabled.waitRes 0 = .ok elem0) :=
  ⟨by decide, safe_click_iter_visible_wait_first envVisibleDisabled 0 elem0 (by decide)⟩

/-! ## Claims about `safe_input` -/

/-- C2: when the element is found, the native clear-and-enter sequence
raises nothing, and the read-back differs from the requested text,
`safe_input` performs one scripted value-assignment (here completing
normally) and returns success with no second verification read and nothing
raised. -/
theorem safe_input_mismatch_scripted_trust (env : InputEnv) (loc text : String)
    (t10 : Int) (i elapsed : Nat) (last : Option PyExc) (tr : List Ev)
    (e : Elem) (v : String)
    (hc : (elapsed : Int) < t10) (hw : env.waitRes i = .ok e)
    (hclear : env.clearNative i e = .ok ()) (hsend : env.sendKeys i e = .ok ())
    (hread : env.readValue i e = .ok v) (hne : v ≠ text)
    (hjs : env.jsSet i e = .ok ()) :
    safeInputGo env loc text t10 i elapsed last tr =
      (.ok (), tr ++ ([.waitVisible 1 true] ++ [.clearNativeEv true, .sendKeysEv,
        .readValue v, .jsSetEv])) := by
  apply safeInputGo_ret_step env loc text t10 i elapsed last tr _ hc
  simp [safeInputIter, safeInputAttempt, clearField, hw, hclear, hsend, hread, hne, hjs]

theorem safe_input_mismatch_scripted_trust_witness :
    safeInputGo envMismatch "(By.ID, f)" "abc" 30 0 0 none [] =
      (.ok (), [.waitVisible 1 true, .clearNativeEv true, .sendKeysEv,
        .readValue "masked", .jsSetEv]) := by
  have h := safe_input_mismatch_scripted_trust envMismatch "(By.ID, f)" "abc" 30 0 0 none []
    elem0 "masked" (by norm_num) rfl rfl rfl rfl (by decide) rfl
  simpa using h

/-- C3 counterexample: native text entry throws, yet `safe_input` does not
sleep and retry the sequence — the very same attempt is completed by the
scripted fallback and the call returns success with nothing raised. -/
theorem safe_input_exception_retry_cex :
    safeInput envKeysThrow "(By.ID, f)" "abc" (some 1) =
      (.ok (), [.waitVisible 1 true, .clearNativeEv true, .sendKeysEv,
        .clearNativeEv true, .jsSetEv]) := by
  unfold safeInput
  rw [safeInputGo_ret_step envKeysThrow "(By.ID, f)" "abc" (resolveTimeout (some 1) * 10)
    0 0 none [] [.waitVisible 1 true, .clearNativeEv true, .sendKeysEv,
      .clearNativeEv true, .jsSetEv]
    (by norm_num [resolveTimeout, DEFAULT_TIMEOUT]) rfl]
  simp

/-- C3 (amended): if, during an attempt of `safe_input`, the
clear/native-entry/verification block raises and the scripted fallback
(scripted clear then scripted value-assignment) completes, the operation
returns success within that same attempt — no sleep, no further iteration,
nothing raised; only when the fallback itself also raises does the
sleep-and-retry path run. -/
theorem safe_input_exception_scripted_completion (env : InputEnv) (loc text : String)
    (t10 : Int) (i elapsed : Nat) (last : Option PyExc) (tr : List Ev)
    (e : Elem) (ex : PyExc) (evs evs2 : List Ev)
    (hc : (elapsed : Int) < t10) (hw : env.waitRes i = .ok e)
    (hatt : safeInputAttempt env i e text = (.error ex, evs))
    (hfb : safeInputFallback env i e = (.ok (), evs2)) :
    safeInputGo env loc text t10 i elapsed last tr =
      (.ok (), tr ++ ([.waitVisible 1 true] ++ evs ++ evs2)) := by
  apply safeInputGo_ret_step env loc text t10 i elapsed last tr _ hc
  simp [safeInputIter, hw, hatt, hfb]

theorem safe_input_exception_scripted_completion_witness :
    safeInputGo envKeysThrow "(By.ID, f)" "abc" 30 0 0 none [] =
      (.ok (), [.waitVisible 1 true, .clearNativeEv true, .sendKeysEv,
        .clearNativeEv true, .jsSetEv]) := by
  have h := safe_input_exception_scripted_completion envKeysThrow "(By.ID, f)" "abc" 30
    0 0 none [] elem0 exKeys [.clearNativeEv true, .sendKeysEv]
    [.clearNativeEv true, .jsSetEv] (by norm_num) rfl rfl rfl
  simpa using h

/-! ## Claims about `wait_for_element` -/

/-- C7 counterexample: with every presence sub-wait timing out (a Selenium
`WebDriverWait.until` timeout carries an empty message), `wait_for_element`
re-raises that last sub-wait exception itself: the failure is of Timeout
kind, but its message is empty — it carries neither the locator nor the
requested state. -/
theorem wait_for_element_timeout_cex :
    waitForElement envNeverPresent "(By.ID, q)" 1 = .error (.timeoutExc "") ∧
      (PyExc.timeoutExc "").str.length = 0 := by
  constructor
  · unfold waitForElement
    rw [waitForElementGo_fail_step envNeverPresent "(By.ID, q)" (1 * 10) 0 0 none
      (.timeoutExc "") (by norm_num) rfl]
    have h15 : 0 + envNeverPresent.dur 0 + 5 = 15 := rfl
    rw [h15]
    exact waitForElementGo_exit_some envNeverPresent "(By.ID, q)" (1 * 10) 1 15
      (.timeoutExc "") (by norm_num)
  · rfl

/-- C7 (amended): when the requested state never holds and `timeout > 0`,
`wait_for_element` fails, once the deadline elapses, by re-raising the last
underlying sub-wait exception unchanged; the locator-and-state-naming
`TimeoutException` of the final line is produced only when no iteration
ever ran. -/
theorem wait_for_element_reraises_last (env : WaitEnv) (loc : String) (T : Int)
    (ex : PyExc) (hT : 0 < T) (h1 : ∀ j, env.res j = .error ex) :
    waitForElement env loc T = .error ex := by
  unfold waitForElement
  rw [waitForElementGo_fail_step env loc (T * 10) 0 0 none ex (by omega) (h1 0)]
  exact waitForElementGo_all_fail env loc (T * 10) ex h1 (T * 10).toNat 1 _ (by omega)

theorem wait_for_element_reraises_last_witness :
    waitForElement envNeverPresent "(By.ID, w)" 2 = .error (.timeoutExc "") :=
  wait_for_element_reraises_last envNeverPresent "(By.ID, w)" 2 (.timeoutExc "")
    (by norm_num) (fun _ => rfl)

end Testopus
